import Mathlib

/-!
Verification of the signal-generation core (indicator library, regime
classifier, confluence engine, risk validator) of the `multis` repository.

Modelling conventions: JavaScript numbers are modelled as exact rationals
(ℚ); JavaScript arrays as lists indexed with a default of 0 out of range
(the code only reads indices that are in range on the paths verified).
`Math.sqrt`, which has no exact rational counterpart, is passed to the
Bollinger-band computation as an explicit function parameter `msqrt`;
universal theorems quantify over it, and every concrete input evaluated
below keeps the two Bollinger windows the engine actually reads constant,
so that only `msqrt 0` is applied there, where `Math.sqrt 0 = 0`.
`Date.now()` is modelled as an explicit clock parameter `now`.
-/

set_option maxRecDepth 8000

attribute [local semireducible] Rat.add Rat.mul Rat.sub Rat.inv Rat.ofScientific

namespace Multis

/-- One OHLCV bar (src/types.ts `Kline`). The `open` field is renamed
`openPrice` because `open` is a Lean keyword; the core never reads it. -/
structure Kline where
  time : ℤ
  openPrice : ℚ
  high : ℚ
  low : ℚ
  close : ℚ
  volume : ℚ
deriving DecidableEq

/-- src/types.ts `Timeframe`. -/
inductive Timeframe where
  | m5
  | m15
  | h1
  | h4
deriving DecidableEq

/-- Signal direction. -/
inductive Direction where
  | LONG
  | SHORT
deriving DecidableEq

/-- Signal lifecycle status. -/
inductive SigStatus where
  | PENDING
  | SENT
  | FAILED
deriving DecidableEq

/-- src/types.ts `Signal`. Optional fields are `Option`-typed. -/
structure Signal where
  symbol : String
  timeframe : Timeframe
  strategyName : String
  direction : Direction
  entry : ℚ
  stopLoss : ℚ
  takeProfit : ℚ
  positionSize : Option ℚ
  suggestedLeverage : Option ℚ
  timestamp : ℤ
  status : SigStatus
  rejectionReason : Option String
deriving DecidableEq

/-- A default signal used only as the out-of-range default of list reads. -/
def dummySignal : Signal :=
  { symbol := "", timeframe := Timeframe.m5, strategyName := "",
    direction := Direction.LONG, entry := 0, stopLoss := 0, takeProfit := 0,
    positionSize := none, suggestedLeverage := none, timestamp := 0,
    status := SigStatus.PENDING, rejectionReason := none }

/-- Default kline used only as the out-of-range default of list reads. -/
def defKline : Kline := ⟨0, 0, 0, 0, 0, 0⟩

/-- strategyService.ts `calculateSMA`: trailing mean, sentinel 0 before
index `period - 1`. -/
def calculateSMA (data : List ℚ) (period : ℕ) : List ℚ :=
  (List.range data.length).map (fun idx =>
    if idx + 1 < period then 0
    else ((data.take (idx + 1)).drop (idx + 1 - period)).sum / (period : ℚ))

/-- strategyService.ts `calculateEMA`, value at index `i`:
seeded with `data[0]`, recurrence `ema[i] = data[i]*k + ema[i-1]*(1-k)`
with `k = 2/(period+1)`. -/
def emaAt (data : List ℚ) (period : ℕ) : ℕ → ℚ
  | 0 => data.getD 0 0
  | i + 1 =>
      data.getD (i + 1) 0 * (2 / (period + 1)) +
        emaAt data period i * (1 - 2 / (period + 1))

/-- strategyService.ts `calculateEMA` as a list. -/
def calculateEMA (data : List ℚ) (period : ℕ) : List ℚ :=
  (List.range data.length).map (emaAt data period)

/-- Summed gains and losses of the first `period` deltas (the
initialization loop of `calculateRSI`). -/
def rsiInit (closes : List ℚ) (period : ℕ) : ℚ × ℚ :=
  (List.range' 1 period).foldl
    (fun gl i =>
      let d := closes.getD i 0 - closes.getD (i - 1) 0
      if 0 ≤ d then (gl.1 + d, gl.2) else (gl.1, gl.2 - d))
    (0, 0)

/-- Wilder averages (avgGain, avgLoss) of `calculateRSI` after processing
index `period + j`. -/
def rsiAvgs (closes : List ℚ) (period : ℕ) : ℕ → ℚ × ℚ
  | 0 =>
      let gl := rsiInit closes period
      (gl.1 / period, gl.2 / (period : ℚ))
  | j + 1 =>
      let i := period + j + 1
      let d := closes.getD i 0 - closes.getD (i - 1) 0
      let gain := if 0 ≤ d then d else 0
      let loss := if d < 0 then -d else 0
      let p := rsiAvgs closes period j
      ((p.1 * ((period : ℚ) - 1) + gain) / period,
       (p.2 * ((period : ℚ) - 1) + loss) / (period : ℚ))

/-- strategyService.ts `calculateRSI`: sentinel 50 through index `period`,
then `100 - 100/(1 + rs)` where `rs` is 100 when the Wilder average loss
is zero and avgGain/avgLoss otherwise. -/
def calculateRSI (closes : List ℚ) (period : ℕ) : List ℚ :=
  (List.range closes.length).map (fun i =>
    if i ≤ period then 50
    else
      let a := rsiAvgs closes period (i - period)
      let rs := if a.2 = 0 then 100 else a.1 / a.2
      100 - 100 / (1 + rs))

/-- One Bollinger band entry. -/
structure BBand where
  middle : ℚ
  upper : ℚ
  lower : ℚ
deriving DecidableEq

/-- strategyService.ts `calculateBollingerBands`: middle = trailing mean,
half-width = `stdDev` times the square root of the population variance,
sentinel all-zero before index `period - 1`. `msqrt` stands for
`Math.sqrt`. -/
def calculateBollingerBands (msqrt : ℚ → ℚ) (closes : List ℚ)
    (period : ℕ) (stdDev : ℚ) : List BBand :=
  (List.range closes.length).map (fun idx =>
    if idx + 1 < period then ⟨0, 0, 0⟩
    else
      let slice := (closes.take (idx + 1)).drop (idx + 1 - period)
      let mean := slice.sum / (period : ℚ)
      let variance := (slice.map (fun b => (b - mean) * (b - mean))).sum / (period : ℚ)
      let sd := msqrt variance
      ⟨mean, mean + stdDev * sd, mean - stdDev * sd⟩)

/-- timeframeService.ts: the true-range series of `calculateATR`. -/
def trueRanges (klines : List Kline) : List ℚ :=
  (List.range klines.length).map (fun i =>
    let k := klines.getD i defKline
    if i = 0 then k.high - k.low
    else
      let pc := (klines.getD (i - 1) defKline).close
      max (k.high - k.low) (max |k.high - pc| |k.low - pc|))

/-- timeframeService.ts `calculateATR`, value at index `i`: 0 before
index `period - 1`, simple average of the first `period` true ranges at
`period - 1`, then Wilder recurrence. -/
def atrAt (klines : List Kline) (period : ℕ) : ℕ → ℚ
  | 0 =>
      if period = 1 then ((trueRanges klines).take period).sum / (period : ℚ)
      else 0
  | i + 1 =>
      if i + 2 < period then 0
      else if i + 2 = period then ((trueRanges klines).take period).sum / (period : ℚ)
      else
        (atrAt klines period i * ((period : ℚ) - 1) +
          (trueRanges klines).getD (i + 1) 0) / (period : ℚ)

/-- timeframeService.ts `calculateATR` as a list. -/
def calculateATR (klines : List Kline) (period : ℕ) : List ℚ :=
  (List.range klines.length).map (atrAt klines period)

/-- timeframeService.ts `calculateADX`: +DM at index `i`. -/
def plusDMAt (klines : List Kline) (i : ℕ) : ℚ :=
  if i = 0 then 0
  else
    let k := klines.getD i defKline
    let p := klines.getD (i - 1) defKline
    let upMove := k.high - p.high
    let downMove := p.low - k.low
    if downMove < upMove ∧ 0 < upMove then upMove else 0

/-- timeframeService.ts `calculateADX`: -DM at index `i`. -/
def minusDMAt (klines : List Kline) (i : ℕ) : ℚ :=
  if i = 0 then 0
  else
    let k := klines.getD i defKline
    let p := klines.getD (i - 1) defKline
    let upMove := k.high - p.high
    let downMove := p.low - k.low
    if upMove < downMove ∧ 0 < downMove then downMove else 0

/-- +DI at index `i`; a zero ATR is replaced by 1 (the `atr[i] || 1`
guard of the source). -/
def plusDIAt (klines : List Kline) (period i : ℕ) : ℚ :=
  let a := atrAt klines period i
  100 * (plusDMAt klines i / (if a = 0 then 1 else a))

/-- -DI at index `i`, with the same zero guard. -/
def minusDIAt (klines : List Kline) (period i : ℕ) : ℚ :=
  let a := atrAt klines period i
  100 * (minusDMAt klines i / (if a = 0 then 1 else a))

/-- DX at index `i`; a zero DI sum is replaced by 1. -/
def dxAt (klines : List Kline) (period i : ℕ) : ℚ :=
  let p := plusDIAt klines period i
  let m := minusDIAt klines period i
  let s := p + m
  100 * (|p - m| / (if s = 0 then 1 else s))

/-- timeframeService.ts `calculateADX`, value at index `i`: Wilder moving
average of DX seeded like the ATR. -/
def adxAt (klines : List Kline) (period : ℕ) : ℕ → ℚ
  | 0 =>
      if period = 1 then
        ((List.range period).map (dxAt klines period)).sum / (period : ℚ)
      else 0
  | i + 1 =>
      if i + 2 < period then 0
      else if i + 2 = period then
        ((List.range period).map (dxAt klines period)).sum / (period : ℚ)
      else
        (adxAt klines period i * ((period : ℚ) - 1) +
          dxAt klines period (i + 1)) / (period : ℚ)

/-- timeframeService.ts `calculateADX` as a list. -/
def calculateADX (klines : List Kline) (period : ℕ) : List ℚ :=
  (List.range klines.length).map (adxAt klines period)

/-- Result of timeframeService.ts `selectSmartTimeframes`. -/
structure TfResult where
  timeframes : List Timeframe
  isVolatile : Bool
deriving DecidableEq

/-- timeframeService.ts `selectSmartTimeframes`: below 50 bars a fixed
default pair with `isVolatile = false`; otherwise an ADX three-way split
(thresholds 20 and 25) and an ATR-spike flag (latest ATR above 1.8 times
the mean of the trailing 20 ATR values). -/
def selectSmartTimeframes (klines : List Kline) : TfResult :=
  if klines.length < 50 then ⟨[Timeframe.m15, Timeframe.h1], false⟩
  else
    let adx := calculateADX klines 14
    let atr := calculateATR klines 14
    let currentADX := adx.getD (adx.length - 1) 0
    let currentATR := atr.getD (atr.length - 1) 0
    let avgATR := (atr.drop (atr.length - 20)).sum / 20
    let isVolatile := decide (avgATR * 1.8 < currentATR)
    let tfs :=
      if currentADX < 20 then [Timeframe.m5, Timeframe.m15]
      else if 25 < currentADX then [Timeframe.h1, Timeframe.h4]
      else [Timeframe.m15, Timeframe.h1]
    ⟨tfs, isVolatile⟩

/-- The EMA 9/21 crossover vote of `runAllStrategies` (+1 cross up,
-1 cross down, 0 otherwise), read at the last two indices. -/
def emaScore (closes : List ℚ) : ℤ :=
  let last := closes.length - 1
  let prev := last - 1
  let ema9 := calculateEMA closes 9
  let ema21 := calculateEMA closes 21
  if ema9.getD prev 0 ≤ ema21.getD prev 0 ∧ ema21.getD last 0 < ema9.getD last 0 then 1
  else if ema21.getD prev 0 ≤ ema9.getD prev 0 ∧ ema9.getD last 0 < ema21.getD last 0 then -1
  else 0

/-- The RSI(14) mean-reversion vote of `runAllStrategies` (+1 below 30,
-1 above 70, 0 otherwise). -/
def rsiScore (closes : List ℚ) : ℤ :=
  let r := (calculateRSI closes 14).getD (closes.length - 1) 0
  if r < 30 then 1 else if 70 < r then -1 else 0

/-- The Bollinger(20, 2) re-entry vote of `runAllStrategies` (+1 re-entry
from below the lower band, -1 re-entry from above the upper band). -/
def bbScore (msqrt : ℚ → ℚ) (closes : List ℚ) : ℤ :=
  let last := closes.length - 1
  let prev := last - 1
  let bands := calculateBollingerBands msqrt closes 20 2
  if closes.getD prev 0 < (bands.getD prev ⟨0, 0, 0⟩).lower ∧
      (bands.getD last ⟨0, 0, 0⟩).lower ≤ closes.getD last 0 then 1
  else if (bands.getD prev ⟨0, 0, 0⟩).upper < closes.getD prev 0 ∧
      closes.getD last 0 ≤ (bands.getD last ⟨0, 0, 0⟩).upper then -1
  else 0

/-- The long-direction vote labels of `runAllStrategies`. -/
def longSignals (msqrt : ℚ → ℚ) (closes : List ℚ) : List String :=
  [if emaScore closes = 1 then some ( "EMA Cross") else none,
   if rsiScore closes = 1 then some ( "RSI Oversold") else none,
   if bbScore msqrt closes = 1 then some ( "BB Re-entry") else none].filterMap id

/-- The short-direction vote labels of `runAllStrategies`. -/
def shortSignals (msqrt : ℚ → ℚ) (closes : List ℚ) : List String :=
  [if emaScore closes = -1 then some ( "EMA Cross") else none,
   if rsiScore closes = -1 then some ( "RSI Overbought") else none,
   if bbScore msqrt closes = -1 then some ( "BB Re-entry") else none].filterMap id

/-- Rejection text for fewer than 200 bars. -/
def insufficientHistoryMsg (n : ℕ) : String :=
  "Insufficient history (" ++ toString n ++ "/200) for SuperStrategy"

/-- Rejection text for a single-vote (low confluence) outcome. -/
def lowConfluenceMsg (symbol : String) (active : List String) : String :=
  symbol ++ ": Low confluence (" ++ toString active.length ++
    "/2 signals). Strategy [" ++ String.intercalate ", " active ++
    "] was active but insufficient."

/-- Rejection text for a LONG confluence against the SMA 200 trend. -/
def trendRejectLongMsg (symbol : String) (ls : List String) : String :=
  symbol ++ ": LONG confluence (" ++ String.intercalate "+" ls ++
    ") rejected by SMA 200 trend filter."

/-- Rejection text for a SHORT confluence against the SMA 200 trend. -/
def trendRejectShortMsg (symbol : String) (ls : List String) : String :=
  symbol ++ ": SHORT confluence (" ++ String.intercalate "+" ls ++
    ") rejected by SMA 200 trend filter."

/-- Rejection text for a LONG confluence without volume confirmation. -/
def volumeRejectLongMsg (symbol : String) : String :=
  symbol ++ ": LONG confluence rejected by Volume filter."

/-- Rejection text for a SHORT confluence without volume confirmation. -/
def volumeRejectShortMsg (symbol : String) : String :=
  symbol ++ ": SHORT confluence rejected by Volume filter."

/-- Result of strategyService.ts `runAllStrategies` (confluence engine). -/
structure StratResult where
  signals : List Signal
  rejections : List String
deriving DecidableEq

/-- The latest close of a candle list. -/
def lastClose (klines : List Kline) : ℚ :=
  (klines.map (fun k => k.close)).getD (klines.length - 1) 0

/-- The latest ATR(14) value of a candle list. -/
def currentATRof (klines : List Kline) : ℚ :=
  (calculateATR klines 14).getD (klines.length - 1) 0

/-- strategyService.ts `runAllStrategies` (the confluence-engine variant,
lines 69-183): guard on 200 bars, three directional votes, confluence of
at least two votes per direction, SMA-200 trend filter, volume filter,
then one signal with stop = 2 ATR and target = 4 ATR from entry.
`Date.now()` is the explicit `now` parameter and `Math.sqrt` the explicit
`msqrt` parameter. -/
def runAllStrategies (msqrt : ℚ → ℚ) (now : ℤ) (symbol : String)
    (timeframe : Timeframe) (klines : List Kline) : StratResult :=
  if klines.length < 200 then ⟨[], [insufficientHistoryMsg klines.length]⟩
  else
    let closes := klines.map (fun k => k.close)
    let volumes := klines.map (fun k => k.volume)
    let last := klines.length - 1
    let currentPrice := closes.getD last 0
    let currentSMA200 := (calculateSMA closes 200).getD last 0
    let isUptrend := currentSMA200 < currentPrice
    let isVolumeConfirmed := (calculateSMA volumes 20).getD last 0 < volumes.getD last 0
    let longS := longSignals msqrt closes
    let shortS := shortSignals msqrt closes
    let mkSig := fun (dir : Direction) (active : List String) =>
      let currentATR := (calculateATR klines 14).getD last 0
      let slDistance := currentATR * 2
      let tpDistance := slDistance * 2
      ({ symbol := symbol, timeframe := timeframe,
         strategyName := "SuperStrategy (" ++ String.intercalate " + " active ++ ")",
         direction := dir, entry := currentPrice,
         stopLoss := if dir = Direction.LONG then currentPrice - slDistance
           else currentPrice + slDistance,
         takeProfit := if dir = Direction.LONG then currentPrice + tpDistance
           else currentPrice - tpDistance,
         positionSize := none, suggestedLeverage := none,
         timestamp := now, status := SigStatus.PENDING,
         rejectionReason := none } : Signal)
    if 2 ≤ longS.length then
      if ¬ isUptrend then ⟨[], [trendRejectLongMsg symbol longS]⟩
      else if ¬ isVolumeConfirmed then ⟨[], [volumeRejectLongMsg symbol]⟩
      else ⟨[mkSig Direction.LONG longS], []⟩
    else if 2 ≤ shortS.length then
      if isUptrend then ⟨[], [trendRejectShortMsg symbol shortS]⟩
      else if ¬ isVolumeConfirmed then ⟨[], [volumeRejectShortMsg symbol]⟩
      else ⟨[mkSig Direction.SHORT shortS], []⟩
    else
      let activeAny := if 0 < longS.length then longS else shortS
      if 0 < activeAny.length then ⟨[], [lowConfluenceMsg symbol activeAny]⟩
      else ⟨[], []⟩

/-- Result of part_001 `applyRiskManagement`. -/
structure RiskResult where
  isValid : Bool
  signal : Signal
  reason : Option String
deriving DecidableEq

/-- `Number(x.toFixed(6))`: rounding to 6 decimal places (ECMAScript
toFixed picks the larger candidate on a tie, i.e. rounds half up). -/
def roundTo6 (q : ℚ) : ℚ := (⌊q * 1000000 + 1 / 2⌋ : ℚ) / 1000000

/-- `x.toFixed(2)` for the nonnegative ratios that reach it: two-decimal
string with a half-up tie rule. -/
def toFixed2 (q : ℚ) : String :=
  let n := (⌊q * 100 + 1 / 2⌋).toNat
  toString (n / 100) ++ "." ++
    (if n % 100 < 10 then "0" ++ toString (n % 100) else toString (n % 100))

/-- Rejection text for a risk/reward ratio below 2. -/
def rrTooLowMsg (r : ℚ) : String :=
  "Rejected: R/R Ratio too low (" ++ toFixed2 r ++ " < 2.0)"

/-- The stop distance |entry - stopLoss| of a candidate signal. -/
def slDistanceOf (signal : Signal) : ℚ := |signal.entry - signal.stopLoss|

/-- The stop distance as a fraction of entry. -/
def slPercentOf (signal : Signal) : ℚ := slDistanceOf signal / signal.entry

/-- The risk/reward ratio |takeProfit - entry| / |entry - stopLoss|. -/
def rrOf (signal : Signal) : ℚ :=
  |signal.takeProfit - signal.entry| / slDistanceOf signal

/-- part_001 `applyRiskManagement`: validation chain (zero stop distance,
stop-fraction noise/volatility bounds, risk/reward at least 2), then
position sizing from min(riskPercent, 5) of balance, leverage ceiling with
clamp-and-resize, leverage floor 1, position size rounded to 6 decimals. -/
def applyRiskManagement (signal : Signal) (balance riskPercent maxLeverage : ℚ) :
    RiskResult :=
  let entry := signal.entry
  let slDistance := slDistanceOf signal
  let slPercent := slDistance / entry
  if slDistance = 0 then
    ⟨false, signal, some ( "Zero distance Stop Loss detected")⟩
  else if slPercent < 0.001 then
    ⟨false, signal, some ( "Unsafe: SL distance too small (Market Noise)")⟩
  else if 0.10 < slPercent then
    ⟨false, signal, some ( "Unsafe: SL distance too large (Extreme Volatility)")⟩
  else
    let tpDistance := |signal.takeProfit - entry|
    let rr := tpDistance / slDistance
    if rr < 2 then ⟨false, signal, some (rrTooLowMsg rr)⟩
    else
      let effectiveRiskPercent := min riskPercent 5
      let riskAmount := balance * (effectiveRiskPercent / 100)
      let positionSize := riskAmount / slDistance
      let positionValue := positionSize * entry
      let requiredLeverage := positionValue / balance
      let ceilLev : ℚ := (⌈requiredLeverage⌉ : ℤ)
      let clamped := maxLeverage < ceilLev
      let suggestedLeverage := max 1 (if clamped then maxLeverage else ceilLev)
      let finalSize := if clamped then balance * maxLeverage / entry else positionSize
      ⟨true,
       { signal with positionSize := some (roundTo6 finalSize),
                     suggestedLeverage := some suggestedLeverage },
       none⟩

/-- A concrete stand-in for `Math.sqrt` used only on inputs whose
Bollinger windows at the two read indices are constant, so that it is
only ever applied at 0, where `Math.sqrt 0 = 0`. -/
def sqrtZ : ℚ → ℚ := fun _ => 0

/-- The 200-bar scenario series: a high plateau (bars 0-39 at 1000), a
fall (900, 700, 500, 300, 100), a slow rise by 3 per bar up to 364
(bars 45-132), a flat stretch at 364 (bars 133-172) and a constant tail
at 363.317 (bars 173-199), as flat well-formed bars
(high = low = close) with volume 100 except 200 on the last bar. The
tail level is chosen so that the last bar shows an EMA 9/21 cross down
together with RSI above 70, price below the SMA 200, confirmed volume
and constant Bollinger windows at the last two indices. -/
def scenarioKlines : List Kline :=
  [Kline.mk 0 1000 1000 1000 1000 100,
   Kline.mk 1 1000 1000 1000 1000 100,
   Kline.mk 2 1000 1000 1000 1000 100,
   Kline.mk 3 1000 1000 1000 1000 100,
   Kline.mk 4 1000 1000 1000 1000 100,
   Kline.mk 5 1000 1000 1000 1000 100,
   Kline.mk 6 1000 1000 1000 1000 100,
   Kline.mk 7 1000 1000 1000 1000 100,
   Kline.mk 8 1000 1000 1000 1000 100,
   Kline.mk 9 1000 1000 1000 1000 100,
   Kline.mk 10 1000 1000 1000 1000 100,
   Kline.mk 11 1000 1000 1000 1000 100,
   Kline.mk 12 1000 1000 1000 1000 100,
   Kline.mk 13 1000 1000 1000 1000 100,
   Kline.mk 14 1000 1000 1000 1000 100,
   Kline.mk 15 1000 1000 1000 1000 100,
   Kline.mk 16 1000 1000 1000 1000 100,
   Kline.mk 17 1000 1000 1000 1000 100,
   Kline.mk 18 1000 1000 1000 1000 100,
   Kline.mk 19 1000 1000 1000 1000 100,
   Kline.mk 20 1000 1000 1000 1000 100,
   Kline.mk 21 1000 1000 1000 1000 100,
   Kline.mk 22 1000 1000 1000 1000 100,
   Kline.mk 23 1000 1000 1000 1000 100,
   Kline.mk 24 1000 1000 1000 1000 100,
   Kline.mk 25 1000 1000 1000 1000 100,
   Kline.mk 26 1000 1000 1000 1000 100,
   Kline.mk 27 1000 1000 1000 1000 100,
   Kline.mk 28 1000 1000 1000 1000 100,
   Kline.mk 29 1000 1000 1000 1000 100,
   Kline.mk 30 1000 1000 1000 1000 100,
   Kline.mk 31 1000 1000 1000 1000 100,
   Kline.mk 32 1000 1000 1000 1000 100,
   Kline.mk 33 1000 1000 1000 1000 100,
   Kline.mk 34 1000 1000 1000 1000 100,
   Kline.mk 35 1000 1000 1000 1000 100,
   Kline.mk 36 1000 1000 1000 1000 100,
   Kline.mk 37 1000 1000 1000 1000 100,
   Kline.mk 38 1000 1000 1000 1000 100,
   Kline.mk 39 1000 1000 1000 1000 100,
   Kline.mk 40 900 900 900 900 100,
   Kline.mk 41 700 700 700 700 100,
   Kline.mk 42 500 500 500 500 100,
   Kline.mk 43 300 300 300 300 100,
   Kline.mk 44 100 100 100 100 100,
   Kline.mk 45 103 103 103 103 100,
   Kline.mk 46 106 106 106 106 100,
   Kline.mk 47 109 109 109 109 100,
   Kline.mk 48 112 112 112 112 100,
   Kline.mk 49 115 115 115 115 100,
   Kline.mk 50 118 118 118 118 100,
   Kline.mk 51 121 121 121 121 100,
   Kline.mk 52 124 124 124 124 100,
   Kline.mk 53 127 127 127 127 100,
   Kline.mk 54 130 130 130 130 100,
   Kline.mk 55 133 133 133 133 100,
   Kline.mk 56 136 136 136 136 100,
   Kline.mk 57 139 139 139 139 100,
   Kline.mk 58 142 142 142 142 100,
   Kline.mk 59 145 145 145 145 100,
   Kline.mk 60 148 148 148 148 100,
   Kline.mk 61 151 151 151 151 100,
   Kline.mk 62 154 154 154 154 100,
   Kline.mk 63 157 157 157 157 100,
   Kline.mk 64 160 160 160 160 100,
   Kline.mk 65 163 163 163 163 100,
   Kline.mk 66 166 166 166 166 100,
   Kline.mk 67 169 169 169 169 100,
   Kline.mk 68 172 172 172 172 100,
   Kline.mk 69 175 175 175 175 100,
   Kline.mk 70 178 178 178 178 100,
   Kline.mk 71 181 181 181 181 100,
   Kline.mk 72 184 184 184 184 100,
   Kline.mk 73 187 187 187 187 100,
   Kline.mk 74 190 190 190 190 100,
   Kline.mk 75 193 193 193 193 100,
   Kline.mk 76 196 196 196 196 100,
   Kline.mk 77 199 199 199 199 100,
   Kline.mk 78 202 202 202 202 100,
   Kline.mk 79 205 205 205 205 100,
   Kline.mk 80 208 208 208 208 100,
   Kline.mk 81 211 211 211 211 100,
   Kline.mk 82 214 214 214 214 100,
   Kline.mk 83 217 217 217 217 100,
   Kline.mk 84 220 220 220 220 100,
   Kline.mk 85 223 223 223 223 100,
   Kline.mk 86 226 226 226 226 100,
   Kline.mk 87 229 229 229 229 100,
   Kline.mk 88 232 232 232 232 100,
   Kline.mk 89 235 235 235 235 100,
   Kline.mk 90 238 238 238 238 100,
   Kline.mk 91 241 241 241 241 100,
   Kline.mk 92 244 244 244 244 100,
   Kline.mk 93 247 247 247 247 100,
   Kline.mk 94 250 250 250 250 100,
   Kline.mk 95 253 253 253 253 100,
   Kline.mk 96 256 256 256 256 100,
   Kline.mk 97 259 259 259 259 100,
   Kline.mk 98 262 262 262 262 100,
   Kline.mk 99 265 265 265 265 100,
   Kline.mk 100 268 268 268 268 100,
   Kline.mk 101 271 271 271 271 100,
   Kline.mk 102 274 274 274 274 100,
   Kline.mk 103 277 277 277 277 100,
   Kline.mk 104 280 280 280 280 100,
   Kline.mk 105 283 283 283 283 100,
   Kline.mk 106 286 286 286 286 100,
   Kline.mk 107 289 289 289 289 100,
   Kline.mk 108 292 292 292 292 100,
   Kline.mk 109 295 295 295 295 100,
   Kline.mk 110 298 298 298 298 100,
   Kline.mk 111 301 301 301 301 100,
   Kline.mk 112 304 304 304 304 100,
   Kline.mk 113 307 307 307 307 100,
   Kline.mk 114 310 310 310 310 100,
   Kline.mk 115 313 313 313 313 100,
   Kline.mk 116 316 316 316 316 100,
   Kline.mk 117 319 319 319 319 100,
   Kline.mk 118 322 322 322 322 100,
   Kline.mk 119 325 325 325 325 100,
   Kline.mk 120 328 328 328 328 100,
   Kline.mk 121 331 331 331 331 100,
   Kline.mk 122 334 334 334 334 100,
   Kline.mk 123 337 337 337 337 100,
   Kline.mk 124 340 340 340 340 100,
   Kline.mk 125 343 343 343 343 100,
   Kline.mk 126 346 346 346 346 100,
   Kline.mk 127 349 349 349 349 100,
   Kline.mk 128 352 352 352 352 100,
   Kline.mk 129 355 355 355 355 100,
   Kline.mk 130 358 358 358 358 100,
   Kline.mk 131 361 361 361 361 100,
   Kline.mk 132 364 364 364 364 100,
   Kline.mk 133 364 364 364 364 100,
   Kline.mk 134 364 364 364 364 100,
   Kline.mk 135 364 364 364 364 100,
   Kline.mk 136 364 364 364 364 100,
   Kline.mk 137 364 364 364 364 100,
   Kline.mk 138 364 364 364 364 100,
   Kline.mk 139 364 364 364 364 100,
   Kline.mk 140 364 364 364 364 100,
   Kline.mk 141 364 364 364 364 100,
   Kline.mk 142 364 364 364 364 100,
   Kline.mk 143 364 364 364 364 100,
   Kline.mk 144 364 364 364 364 100,
   Kline.mk 145 364 364 364 364 100,
   Kline.mk 146 364 364 364 364 100,
   Kline.mk 147 364 364 364 364 100,
   Kline.mk 148 364 364 364 364 100,
   Kline.mk 149 364 364 364 364 100,
   Kline.mk 150 364 364 364 364 100,
   Kline.mk 151 364 364 364 364 100,
   Kline.mk 152 364 364 364 364 100,
   Kline.mk 153 364 364 364 364 100,
   Kline.mk 154 364 364 364 364 100,
   Kline.mk 155 364 364 364 364 100,
   Kline.mk 156 364 364 364 364 100,
   Kline.mk 157 364 364 364 364 100,
   Kline.mk 158 364 364 364 364 100,
   Kline.mk 159 364 364 364 364 100,
   Kline.mk 160 364 364 364 364 100,
   Kline.mk 161 364 364 364 364 100,
   Kline.mk 162 364 364 364 364 100,
   Kline.mk 163 364 364 364 364 100,
   Kline.mk 164 364 364 364 364 100,
   Kline.mk 165 364 364 364 364 100,
   Kline.mk 166 364 364 364 364 100,
   Kline.mk 167 364 364 364 364 100,
   Kline.mk 168 364 364 364 364 100,
   Kline.mk 169 364 364 364 364 100,
   Kline.mk 170 364 364 364 364 100,
   Kline.mk 171 364 364 364 364 100,
   Kline.mk 172 364 364 364 364 100,
   Kline.mk 173 (363317 / 1000) (363317 / 1000) (363317 / 1000) (363317 / 1000) 100,
   Kline.mk 174 (363317 / 1000) (363317 / 1000) (363317 / 1000) (363317 / 1000) 100,
   Kline.mk 175 (363317 / 1000) (363317 / 1000) (363317 / 1000) (363317 / 1000) 100,
   Kline.mk 176 (363317 / 1000) (363317 / 1000) (363317 / 1000) (363317 / 1000) 100,
   Kline.mk 177 (363317 / 1000) (363317 / 1000) (363317 / 1000) (363317 / 1000) 100,
   Kline.mk 178 (363317 / 1000) (363317 / 1000) (363317 / 1000) (363317 / 1000) 100,
   Kline.mk 179 (363317 / 1000) (363317 / 1000) (363317 / 1000) (363317 / 1000) 100,
   Kline.mk 180 (363317 / 1000) (363317 / 1000) (363317 / 1000) (363317 / 1000) 100,
   Kline.mk 181 (363317 / 1000) (363317 / 1000) (363317 / 1000) (363317 / 1000) 100,
   Kline.mk 182 (363317 / 1000) (363317 / 1000) (363317 / 1000) (363317 / 1000) 100,
   Kline.mk 183 (363317 / 1000) (363317 / 1000) (363317 / 1000) (363317 / 1000) 100,
   Kline.mk 184 (363317 / 1000) (363317 / 1000) (363317 / 1000) (363317 / 1000) 100,
   Kline.mk 185 (363317 / 1000) (363317 / 1000) (363317 / 1000) (363317 / 1000) 100,
   Kline.mk 186 (363317 / 1000) (363317 / 1000) (363317 / 1000) (363317 / 1000) 100,
   Kline.mk 187 (363317 / 1000) (363317 / 1000) (363317 / 1000) (363317 / 1000) 100,
   Kline.mk 188 (363317 / 1000) (363317 / 1000) (363317 / 1000) (363317 / 1000) 100,
   Kline.mk 189 (363317 / 1000) (363317 / 1000) (363317 / 1000) (363317 / 1000) 100,
   Kline.mk 190 (363317 / 1000) (363317 / 1000) (363317 / 1000) (363317 / 1000) 100,
   Kline.mk 191 (363317 / 1000) (363317 / 1000) (363317 / 1000) (363317 / 1000) 100,
   Kline.mk 192 (363317 / 1000) (363317 / 1000) (363317 / 1000) (363317 / 1000) 100,
   Kline.mk 193 (363317 / 1000) (363317 / 1000) (363317 / 1000) (363317 / 1000) 100,
   Kline.mk 194 (363317 / 1000) (363317 / 1000) (363317 / 1000) (363317 / 1000) 100,
   Kline.mk 195 (363317 / 1000) (363317 / 1000) (363317 / 1000) (363317 / 1000) 100,
   Kline.mk 196 (363317 / 1000) (363317 / 1000) (363317 / 1000) (363317 / 1000) 100,
   Kline.mk 197 (363317 / 1000) (363317 / 1000) (363317 / 1000) (363317 / 1000) 100,
   Kline.mk 198 (363317 / 1000) (363317 / 1000) (363317 / 1000) (363317 / 1000) 100,
   Kline.mk 199 (363317 / 1000) (363317 / 1000) (363317 / 1000) (363317 / 1000) 200]

/-- The same closes on degenerate bars whose high and low both sit at
the previous close, so every true range is 0 and the ATR is identically
zero while the close-driven votes are unchanged. -/
def zeroRangeKlines : List Kline :=
  [Kline.mk 0 1000 1000 1000 1000 100,
   Kline.mk 1 1000 1000 1000 1000 100,
   Kline.mk 2 1000 1000 1000 1000 100,
   Kline.mk 3 1000 1000 1000 1000 100,
   Kline.mk 4 1000 1000 1000 1000 100,
   Kline.mk 5 1000 1000 1000 1000 100,
   Kline.mk 6 1000 1000 1000 1000 100,
   Kline.mk 7 1000 1000 1000 1000 100,
   Kline.mk 8 1000 1000 1000 1000 100,
   Kline.mk 9 1000 1000 1000 1000 100,
   Kline.mk 10 1000 1000 1000 1000 100,
   Kline.mk 11 1000 1000 1000 1000 100,
   Kline.mk 12 1000 1000 1000 1000 100,
   Kline.mk 13 1000 1000 1000 1000 100,
   Kline.mk 14 1000 1000 1000 1000 100,
   Kline.mk 15 1000 1000 1000 1000 100,
   Kline.mk 16 1000 1000 1000 1000 100,
   Kline.mk 17 1000 1000 1000 1000 100,
   Kline.mk 18 1000 1000 1000 1000 100,
   Kline.mk 19 1000 1000 1000 1000 100,
   Kline.mk 20 1000 1000 1000 1000 100,
   Kline.mk 21 1000 1000 1000 1000 100,
   Kline.mk 22 1000 1000 1000 1000 100,
   Kline.mk 23 1000 1000 1000 1000 100,
   Kline.mk 24 1000 1000 1000 1000 100,
   Kline.mk 25 1000 1000 1000 1000 100,
   Kline.mk 26 1000 1000 1000 1000 100,
   Kline.mk 27 1000 1000 1000 1000 100,
   Kline.mk 28 1000 1000 1000 1000 100,
   Kline.mk 29 1000 1000 1000 1000 100,
   Kline.mk 30 1000 1000 1000 1000 100,
   Kline.mk 31 1000 1000 1000 1000 100,
   Kline.mk 32 1000 1000 1000 1000 100,
   Kline.mk 33 1000 1000 1000 1000 100,
   Kline.mk 34 1000 1000 1000 1000 100,
   Kline.mk 35 1000 1000 1000 1000 100,
   Kline.mk 36 1000 1000 1000 1000 100,
   Kline.mk 37 1000 1000 1000 1000 100,
   Kline.mk 38 1000 1000 1000 1000 100,
   Kline.mk 39 1000 1000 1000 1000 100,
   Kline.mk 40 1000 1000 1000 900 100,
   Kline.mk 41 900 900 900 700 100,
   Kline.mk 42 700 700 700 500 100,
   Kline.mk 43 500 500 500 300 100,
   Kline.mk 44 300 300 300 100 100,
   Kline.mk 45 100 100 100 103 100,
   Kline.mk 46 103 103 103 106 100,
   Kline.mk 47 106 106 106 109 100,
   Kline.mk 48 109 109 109 112 100,
   Kline.mk 49 112 112 112 115 100,
   Kline.mk 50 115 115 115 118 100,
   Kline.mk 51 118 118 118 121 100,
   Kline.mk 52 121 121 121 124 100,
   Kline.mk 53 124 124 124 127 100,
   Kline.mk 54 127 127 127 130 100,
   Kline.mk 55 130 130 130 133 100,
   Kline.mk 56 133 133 133 136 100,
   Kline.mk 57 136 136 136 139 100,
   Kline.mk 58 139 139 139 142 100,
   Kline.mk 59 142 142 142 145 100,
   Kline.mk 60 145 145 145 148 100,
   Kline.mk 61 148 148 148 151 100,
   Kline.mk 62 151 151 151 154 100,
   Kline.mk 63 154 154 154 157 100,
   Kline.mk 64 157 157 157 160 100,
   Kline.mk 65 160 160 160 163 100,
   Kline.mk 66 163 163 163 166 100,
   Kline.mk 67 166 166 166 169 100,
   Kline.mk 68 169 169 169 172 100,
   Kline.mk 69 172 172 172 175 100,
   Kline.mk 70 175 175 175 178 100,
   Kline.mk 71 178 178 178 181 100,
   Kline.mk 72 181 181 181 184 100,
   Kline.mk 73 184 184 184 187 100,
   Kline.mk 74 187 187 187 190 100,
   Kline.mk 75 190 190 190 193 100,
   Kline.mk 76 193 193 193 196 100,
   Kline.mk 77 196 196 196 199 100,
   Kline.mk 78 199 199 199 202 100,
   Kline.mk 79 202 202 202 205 100,
   Kline.mk 80 205 205 205 208 100,
   Kline.mk 81 208 208 208 211 100,
   Kline.mk 82 211 211 211 214 100,
   Kline.mk 83 214 214 214 217 100,
   Kline.mk 84 217 217 217 220 100,
   Kline.mk 85 220 220 220 223 100,
   Kline.mk 86 223 223 223 226 100,
   Kline.mk 87 226 226 226 229 100,
   Kline.mk 88 229 229 229 232 100,
   Kline.mk 89 232 232 232 235 100,
   Kline.mk 90 235 235 235 238 100,
   Kline.mk 91 238 238 238 241 100,
   Kline.mk 92 241 241 241 244 100,
   Kline.mk 93 244 244 244 247 100,
   Kline.mk 94 247 247 247 250 100,
   Kline.mk 95 250 250 250 253 100,
   Kline.mk 96 253 253 253 256 100,
   Kline.mk 97 256 256 256 259 100,
   Kline.mk 98 259 259 259 262 100,
   Kline.mk 99 262 262 262 265 100,
   Kline.mk 100 265 265 265 268 100,
   Kline.mk 101 268 268 268 271 100,
   Kline.mk 102 271 271 271 274 100,
   Kline.mk 103 274 274 274 277 100,
   Kline.mk 104 277 277 277 280 100,
   Kline.mk 105 280 280 280 283 100,
   Kline.mk 106 283 283 283 286 100,
   Kline.mk 107 286 286 286 289 100,
   Kline.mk 108 289 289 289 292 100,
   Kline.mk 109 292 292 292 295 100,
   Kline.mk 110 295 295 295 298 100,
   Kline.mk 111 298 298 298 301 100,
   Kline.mk 112 301 301 301 304 100,
   Kline.mk 113 304 304 304 307 100,
   Kline.mk 114 307 307 307 310 100,
   Kline.mk 115 310 310 310 313 100,
   Kline.mk 116 313 313 313 316 100,
   Kline.mk 117 316 316 316 319 100,
   Kline.mk 118 319 319 319 322 100,
   Kline.mk 119 322 322 322 325 100,
   Kline.mk 120 325 325 325 328 100,
   Kline.mk 121 328 328 328 331 100,
   Kline.mk 122 331 331 331 334 100,
   Kline.mk 123 334 334 334 337 100,
   Kline.mk 124 337 337 337 340 100,
   Kline.mk 125 340 340 340 343 100,
   Kline.mk 126 343 343 343 346 100,
   Kline.mk 127 346 346 346 349 100,
   Kline.mk 128 349 349 349 352 100,
   Kline.mk 129 352 352 352 355 100,
   Kline.mk 130 355 355 355 358 100,
   Kline.mk 131 358 358 358 361 100,
   Kline.mk 132 361 361 361 364 100,
   Kline.mk 133 364 364 364 364 100,
   Kline.mk 134 364 364 364 364 100,
   Kline.mk 135 364 364 364 364 100,
   Kline.mk 136 364 364 364 364 100,
   Kline.mk 137 364 364 364 364 100,
   Kline.mk 138 364 364 364 364 100,
   Kline.mk 139 364 364 364 364 100,
   Kline.mk 140 364 364 364 364 100,
   Kline.mk 141 364 364 364 364 100,
   Kline.mk 142 364 364 364 364 100,
   Kline.mk 143 364 364 364 364 100,
   Kline.mk 144 364 364 364 364 100,
   Kline.mk 145 364 364 364 364 100,
   Kline.mk 146 364 364 364 364 100,
   Kline.mk 147 364 364 364 364 100,
   Kline.mk 148 364 364 364 364 100,
   Kline.mk 149 364 364 364 364 100,
   Kline.mk 150 364 364 364 364 100,
   Kline.mk 151 364 364 364 364 100,
   Kline.mk 152 364 364 364 364 100,
   Kline.mk 153 364 364 364 364 100,
   Kline.mk 154 364 364 364 364 100,
   Kline.mk 155 364 364 364 364 100,
   Kline.mk 156 364 364 364 364 100,
   Kline.mk 157 364 364 364 364 100,
   Kline.mk 158 364 364 364 364 100,
   Kline.mk 159 364 364 364 364 100,
   Kline.mk 160 364 364 364 364 100,
   Kline.mk 161 364 364 364 364 100,
   Kline.mk 162 364 364 364 364 100,
   Kline.mk 163 364 364 364 364 100,
   Kline.mk 164 364 364 364 364 100,
   Kline.mk 165 364 364 364 364 100,
   Kline.mk 166 364 364 364 364 100,
   Kline.mk 167 364 364 364 364 100,
   Kline.mk 168 364 364 364 364 100,
   Kline.mk 169 364 364 364 364 100,
   Kline.mk 170 364 364 364 364 100,
   Kline.mk 171 364 364 364 364 100,
   Kline.mk 172 364 364 364 364 100,
   Kline.mk 173 364 364 364 (363317 / 1000) 100,
   Kline.mk 174 (363317 / 1000) (363317 / 1000) (363317 / 1000) (363317 / 1000) 100,
   Kline.mk 175 (363317 / 1000) (363317 / 1000) (363317 / 1000) (363317 / 1000) 100,
   Kline.mk 176 (363317 / 1000) (363317 / 1000) (363317 / 1000) (363317 / 1000) 100,
   Kline.mk 177 (363317 / 1000) (363317 / 1000) (363317 / 1000) (363317 / 1000) 100,
   Kline.mk 178 (363317 / 1000) (363317 / 1000) (363317 / 1000) (363317 / 1000) 100,
   Kline.mk 179 (363317 / 1000) (363317 / 1000) (363317 / 1000) (363317 / 1000) 100,
   Kline.mk 180 (363317 / 1000) (363317 / 1000) (363317 / 1000) (363317 / 1000) 100,
   Kline.mk 181 (363317 / 1000) (363317 / 1000) (363317 / 1000) (363317 / 1000) 100,
   Kline.mk 182 (363317 / 1000) (363317 / 1000) (363317 / 1000) (363317 / 1000) 100,
   Kline.mk 183 (363317 / 1000) (363317 / 1000) (363317 / 1000) (363317 / 1000) 100,
   Kline.mk 184 (363317 / 1000) (363317 / 1000) (363317 / 1000) (363317 / 1000) 100,
   Kline.mk 185 (363317 / 1000) (363317 / 1000) (363317 / 1000) (363317 / 1000) 100,
   Kline.mk 186 (363317 / 1000) (363317 / 1000) (363317 / 1000) (363317 / 1000) 100,
   Kline.mk 187 (363317 / 1000) (363317 / 1000) (363317 / 1000) (363317 / 1000) 100,
   Kline.mk 188 (363317 / 1000) (363317 / 1000) (363317 / 1000) (363317 / 1000) 100,
   Kline.mk 189 (363317 / 1000) (363317 / 1000) (363317 / 1000) (363317 / 1000) 100,
   Kline.mk 190 (363317 / 1000) (363317 / 1000) (363317 / 1000) (363317 / 1000) 100,
   Kline.mk 191 (363317 / 1000) (363317 / 1000) (363317 / 1000) (363317 / 1000) 100,
   Kline.mk 192 (363317 / 1000) (363317 / 1000) (363317 / 1000) (363317 / 1000) 100,
   Kline.mk 193 (363317 / 1000) (363317 / 1000) (363317 / 1000) (363317 / 1000) 100,
   Kline.mk 194 (363317 / 1000) (363317 / 1000) (363317 / 1000) (363317 / 1000) 100,
   Kline.mk 195 (363317 / 1000) (363317 / 1000) (363317 / 1000) (363317 / 1000) 100,
   Kline.mk 196 (363317 / 1000) (363317 / 1000) (363317 / 1000) (363317 / 1000) 100,
   Kline.mk 197 (363317 / 1000) (363317 / 1000) (363317 / 1000) (363317 / 1000) 100,
   Kline.mk 198 (363317 / 1000) (363317 / 1000) (363317 / 1000) (363317 / 1000) 100,
   Kline.mk 199 (363317 / 1000) (363317 / 1000) (363317 / 1000) (363317 / 1000) 200]
/-- 200 identical bars: the constant series used to exercise the
single-vote (low confluence) path. -/
def constKlines : List Kline :=
  (List.range 200).map (fun i => ⟨(i : ℤ), 100, 100, 100, 100, 100⟩)

/-- 50 identical bars for the regime classifier. -/
def flat50 : List Kline :=
  (List.range 50).map (fun i => ⟨(i : ℤ), 100, 100, 100, 100, 100⟩)

example : rsiScore (constKlines.map (fun k => k.close)) = -1 := by decide

/-- Reading index `i` of a list built by mapping over `List.range`. -/
theorem getD_map_range {α : Type} (f : ℕ → α) (n i : ℕ) (d : α) (h : i < n) :
    ((List.range n).map f).getD i d = f i := by
  rw [List.getD_eq_getD_get?, List.get?_map, List.get?_range h]
  rfl

/-- The three-way regime split stated in the spec's own terms: one pair
below ADX 20, another above ADX 25, the middle pair in between. -/
def regimeSplit (a : ℚ) : List Timeframe :=
  if a < 20 then [Timeframe.m5, Timeframe.m15]
  else if 25 < a then [Timeframe.h1, Timeframe.h4]
  else [Timeframe.m15, Timeframe.h1]

/-- The latest ADX(14) value of a candle list. -/
def currentADXof (klines : List Kline) : ℚ :=
  (calculateADX klines 14).getD (klines.length - 1) 0

/-- The mean of the trailing 20 ATR(14) values. -/
def avgATR20of (klines : List Kline) : ℚ :=
  ((calculateATR klines 14).drop ((calculateATR klines 14).length - 20)).sum / 20

/-- C7: for at least 50 bars the regime classifier returns exactly the
spec's three-way ADX split (thresholds 20 and 25) of three pairwise
distinct fixed pairs, determined solely by the latest ADX value; the
boundary values 20 and 25 both select the middle pair. -/
theorem C7_regime_split (ks : List Kline) (h : 50 ≤ ks.length) :
    (selectSmartTimeframes ks).timeframes = regimeSplit (currentADXof ks) ∧
    regimeSplit 20 = [Timeframe.m15, Timeframe.h1] ∧
    regimeSplit 25 = [Timeframe.m15, Timeframe.h1] ∧
    [Timeframe.m5, Timeframe.m15] ≠ [Timeframe.h1, Timeframe.h4] ∧
    [Timeframe.m5, Timeframe.m15] ≠ [Timeframe.m15, Timeframe.h1] ∧
    [Timeframe.h1, Timeframe.h4] ≠ [Timeframe.m15, Timeframe.h1] := by
  refine ⟨?_, by norm_num [regimeSplit], by norm_num [regimeSplit], by decide, by decide, by decide⟩
  unfold selectSmartTimeframes
  rw [if_neg (by omega)]
  have hlen : (calculateADX ks 14).length = ks.length := by
    simp [calculateADX]
  simp only []
  rw [regimeSplit, currentADXof, hlen]

/-- C8: the volatility flag is true exactly when the input has at least
50 bars and the latest ATR(14) strictly exceeds 1.8 times the mean of
the trailing 20 ATR values; below 50 bars the classifier returns the
fixed default pair with the flag off. -/
theorem C8_volatility_flag (ks : List Kline) :
    ((selectSmartTimeframes ks).isVolatile = true ↔
      50 ≤ ks.length ∧ avgATR20of ks * 1.8 < currentATRof ks) ∧
    (selectSmartTimeframes ks).timeframes =
      (if ks.length < 50 then [Timeframe.m15, Timeframe.h1]
       else regimeSplit (currentADXof ks)) := by
  unfold selectSmartTimeframes
  by_cases h : ks.length < 50
  · rw [if_pos h, if_pos h]
    refine ⟨⟨fun hc => absurd hc (by simp), fun hc => absurd hc.1 (by omega)⟩, rfl⟩
  · rw [if_neg h, if_neg h]
    have hlenA : (calculateATR ks 14).length = ks.length := by
      simp [calculateATR]
    have hlenX : (calculateADX ks 14).length = ks.length := by
      simp [calculateADX]
    simp only []
    constructor
    · simp only [decide_eq_true_eq, avgATR20of, currentATRof, hlenA]
      exact ⟨fun hc => ⟨by omega, hc⟩, fun hc => hc.2⟩
    · rw [regimeSplit, currentADXof, hlenX]

/-- Plain 16-element increasing close series used for the RSI zero-loss
branch. -/
def closes16 : List ℚ := (List.range 16).map (fun i => (i : ℚ))

/-- C5 (amended): through index `period` the RSI list holds the neutral
sentinel 50; above it, the value is `100 - 100/(1 + avgGain/avgLoss)`
when the Wilder average loss is nonzero, and `10000/101` (the code
substitutes rs = 100, giving 100 - 100/101, not 100) when it is zero. -/
theorem C5_rsi_values (closes : List ℚ) (i : ℕ) (h : i < closes.length) :
    (calculateRSI closes 14).getD i 0 =
      (if i ≤ 14 then 50
       else if (rsiAvgs closes 14 (i - 14)).2 = 0 then 10000 / 101
       else 100 - 100 / (1 + (rsiAvgs closes 14 (i - 14)).1 / (rsiAvgs closes 14 (i - 14)).2)) := by
  rw [calculateRSI, getD_map_range _ _ _ _ h]
  by_cases h14 : i ≤ 14
  · rw [if_pos h14, if_pos h14]
  · rw [if_neg h14, if_neg h14]
    simp only []
    by_cases hz : (rsiAvgs closes 14 (i - 14)).2 = 0
    · rw [if_pos hz, if_pos hz]
      norm_num
    · rw [if_neg hz, if_neg hz]

/-- C5, refuting part: on a strictly increasing series the Wilder average
loss is 0 above the warm-up, and the RSI value returned there is
10000/101, not the 100 the claim states. -/
theorem C5_counterexample :
    (rsiAvgs closes16 14 1).2 = 0 ∧
    (calculateRSI closes16 14).getD 15 0 = 10000 / 101 ∧
    (calculateRSI closes16 14).getD 15 0 ≠ 100 :=
  ⟨by decide, by decide, by decide⟩

/-- C5 witness: the characterization applied at the concrete series. -/
theorem C5_witness :
    15 < closes16.length ∧
    (calculateRSI closes16 14).getD 15 0 =
      (if 15 ≤ 14 then 50
       else if (rsiAvgs closes16 14 (15 - 14)).2 = 0 then 10000 / 101
       else 100 - 100 / (1 + (rsiAvgs closes16 14 (15 - 14)).1 / (rsiAvgs closes16 14 (15 - 14)).2)) :=
  ⟨by decide, C5_rsi_values closes16 15 (by decide)⟩

/-- C7 witness: the split applied to a concrete 50-bar series. -/
theorem C7_witness :
    50 ≤ flat50.length ∧
    ((selectSmartTimeframes flat50).timeframes = regimeSplit (currentADXof flat50) ∧
     regimeSplit 20 = [Timeframe.m15, Timeframe.h1] ∧
     regimeSplit 25 = [Timeframe.m15, Timeframe.h1] ∧
     [Timeframe.m5, Timeframe.m15] ≠ [Timeframe.h1, Timeframe.h4] ∧
     [Timeframe.m5, Timeframe.m15] ≠ [Timeframe.m15, Timeframe.h1] ∧
     [Timeframe.h1, Timeframe.h4] ≠ [Timeframe.m15, Timeframe.h1]) :=
  ⟨by decide, C7_regime_split flat50 (by decide)⟩

/-- The raw (pre-clamp) position size of the risk validator as the claim
words it: balance times the capped risk fraction over the stop distance. -/
def rawPositionSize (signal : Signal) (balance riskPercent : ℚ) : ℚ :=
  balance * (min riskPercent 5 / 100) / slDistanceOf signal

/-- The required leverage of the raw position, rounded up to the next
integer. -/
def requiredLevCeil (signal : Signal) (balance riskPercent : ℚ) : ℚ :=
  ((⌈rawPositionSize signal balance riskPercent * signal.entry / balance⌉ : ℤ) : ℚ)

/-- C3 (amended): an accepted candidate carries positionSize =
round6(raw position size) and suggestedLeverage = max(1, ceiled required
leverage) when that ceiling is within maxLeverage; otherwise
suggestedLeverage = max(1, maxLeverage) — not bare maxLeverage — and
positionSize = round6(balance * maxLeverage / entry). -/
theorem C3_position_sizing (signal : Signal) (balance riskPercent maxLeverage : ℚ)
    (h : (applyRiskManagement signal balance riskPercent maxLeverage).isValid = true) :
    (applyRiskManagement signal balance riskPercent maxLeverage).signal.positionSize =
      some (roundTo6 (if requiredLevCeil signal balance riskPercent ≤ maxLeverage
        then rawPositionSize signal balance riskPercent
        else balance * maxLeverage / signal.entry)) ∧
    (applyRiskManagement signal balance riskPercent maxLeverage).signal.suggestedLeverage =
      some (max 1 (if requiredLevCeil signal balance riskPercent ≤ maxLeverage
        then requiredLevCeil signal balance riskPercent
        else maxLeverage)) := by
  unfold applyRiskManagement at h ⊢
  simp only [] at h ⊢
  split_ifs at h ⊢ with hz hn hv hr hc hq hq2
  all_goals try (simp at h)
  · exact absurd hq (not_le.mpr hc)
  · exact ⟨rfl, rfl⟩
  · exact ⟨rfl, rfl⟩
  · exact absurd (lt_of_not_le hq2) hc

/-- A candidate whose clamp branch fires at maxLeverage 0. -/
def clampSignal : Signal :=
  { dummySignal with entry := 100, stopLoss := 98, takeProfit := 104 }

/-- C3, refuting part: with maxLeverage = 0 the clamp branch fires, yet
the accepted signal carries suggestedLeverage 1 (the floor), not the
maxLeverage 0 the claim states. -/
theorem C3_counterexample :
    (applyRiskManagement clampSignal 1000 1 0).isValid = true ∧
    ¬ requiredLevCeil clampSignal 1000 1 ≤ 0 ∧
    (applyRiskManagement clampSignal 1000 1 0).signal.suggestedLeverage = some 1 ∧
    (some (1 : ℚ) ≠ some (0 : ℚ)) :=
  ⟨by decide, by decide, by decide, by decide⟩

/-- C3 witness: the claim's own concrete instance (balance 1000, risk 1,
maxLeverage 5, entry 100, stop 98) gives suggestedLeverage 1 and
positionSize 5. -/
theorem C3_witness :
    (applyRiskManagement clampSignal 1000 1 5).isValid = true ∧
    ((applyRiskManagement clampSignal 1000 1 5).signal.positionSize =
      some (roundTo6 (if requiredLevCeil clampSignal 1000 1 ≤ 5
        then rawPositionSize clampSignal 1000 1
        else 1000 * 5 / clampSignal.entry)) ∧
     (applyRiskManagement clampSignal 1000 1 5).signal.suggestedLeverage =
      some (max 1 (if requiredLevCeil clampSignal 1000 1 ≤ 5
        then requiredLevCeil clampSignal 1000 1
        else 5))) ∧
    (applyRiskManagement clampSignal 1000 1 5).signal.positionSize = some 5 ∧
    (applyRiskManagement clampSignal 1000 1 5).signal.suggestedLeverage = some 1 :=
  ⟨by decide, C3_position_sizing clampSignal 1000 1 5 (by decide), by decide, by decide⟩

/-- C4 (amended): given a nonzero stop distance, the validator accepts
exactly when the stop fraction lies in the closed interval
[0.001, 0.10] — both bounds accepted, the lower bound is not exclusive —
and the risk/reward ratio is at least 2; fractions below 0.001 are
rejected as noise and fractions above 0.10 as excessive volatility. -/
theorem C4_stop_fraction (signal : Signal) (balance riskPercent maxLeverage : ℚ)
    (h : slDistanceOf signal ≠ 0) :
    ((applyRiskManagement signal balance riskPercent maxLeverage).isValid = true ↔
      0.001 ≤ slPercentOf signal ∧ slPercentOf signal ≤ 0.10 ∧ 2 ≤ rrOf signal) ∧
    (applyRiskManagement signal balance riskPercent maxLeverage).reason =
      (if slPercentOf signal < 0.001 then some ( "Unsafe: SL distance too small (Market Noise)")
       else if 0.10 < slPercentOf signal then some ( "Unsafe: SL distance too large (Extreme Volatility)")
       else if rrOf signal < 2 then some (rrTooLowMsg (rrOf signal))
       else none) := by
  unfold applyRiskManagement
  simp only [slPercentOf, rrOf]
  rw [if_neg h]
  split_ifs with h1 h2 h3
  · exact ⟨⟨fun hx => absurd hx (by simp), fun hx => absurd h1 (not_lt.mpr hx.1)⟩, rfl⟩
  · exact ⟨⟨fun hx => absurd hx (by simp), fun hx => absurd h2 (not_lt.mpr hx.2.1)⟩, rfl⟩
  · exact ⟨⟨fun hx => absurd hx (by simp), fun hx => absurd h3 (not_lt.mpr hx.2.2)⟩, rfl⟩
  all_goals exact ⟨⟨fun _ => ⟨le_of_not_lt h1, le_of_not_lt h2, le_of_not_lt h3⟩, fun _ => rfl⟩, rfl⟩

/-- A candidate whose stop distance is exactly 0.1 percent of entry. -/
def noiseEdgeSignal : Signal :=
  { dummySignal with entry := 1000, stopLoss := 999, takeProfit := 1002 }

/-- C4, refuting part: a stop distance of exactly 0.1 percent of entry is
accepted, while the claim states it is rejected as noise. -/
theorem C4_counterexample :
    slPercentOf noiseEdgeSignal = 0.001 ∧
    (applyRiskManagement noiseEdgeSignal 1000 1 10).isValid = true :=
  ⟨by decide, by decide⟩

/-- C4 witness: the characterization applied at the boundary candidate. -/
theorem C4_witness :
    slDistanceOf noiseEdgeSignal ≠ 0 ∧
    (((applyRiskManagement noiseEdgeSignal 1000 1 10).isValid = true ↔
      0.001 ≤ slPercentOf noiseEdgeSignal ∧ slPercentOf noiseEdgeSignal ≤ 0.10 ∧
        2 ≤ rrOf noiseEdgeSignal) ∧
     (applyRiskManagement noiseEdgeSignal 1000 1 10).reason =
      (if slPercentOf noiseEdgeSignal < 0.001 then some ( "Unsafe: SL distance too small (Market Noise)")
       else if 0.10 < slPercentOf noiseEdgeSignal then some ( "Unsafe: SL distance too large (Extreme Volatility)")
       else if rrOf noiseEdgeSignal < 2 then some (rrTooLowMsg (rrOf noiseEdgeSignal))
       else none)) :=
  ⟨by decide, C4_stop_fraction noiseEdgeSignal 1000 1 10 (by decide)⟩

/-- C10: a rejected candidate is returned exactly as received — the
signal in an invalid result is the input signal, unchanged in every
field, with no positionSize or suggestedLeverage attached. -/
theorem C10_reject_unchanged (signal : Signal) (balance riskPercent maxLeverage : ℚ)
    (h : (applyRiskManagement signal balance riskPercent maxLeverage).isValid = false) :
    (applyRiskManagement signal balance riskPercent maxLeverage).signal = signal := by
  unfold applyRiskManagement at h ⊢
  simp only [] at h ⊢
  split_ifs at h ⊢
  all_goals rfl

/-- A candidate with a zero-distance stop, rejected by the validator. -/
def zeroStopSignal : Signal :=
  { dummySignal with entry := 100, stopLoss := 100, takeProfit := 100 }

/-- C10 witness: a concrete rejection hands back the input signal. -/
theorem C10_witness :
    (applyRiskManagement zeroStopSignal 1000 1 10).isValid = false ∧
    (applyRiskManagement zeroStopSignal 1000 1 10).signal = zeroStopSignal :=
  ⟨by decide, C10_reject_unchanged zeroStopSignal 1000 1 10 (by decide)⟩

/-- The long vote count is the sum of the three indicator long votes. -/
theorem length_longSignals (msqrt : ℚ → ℚ) (closes : List ℚ) :
    (longSignals msqrt closes).length =
      (if emaScore closes = 1 then 1 else 0) +
        ((if rsiScore closes = 1 then 1 else 0) + (if bbScore msqrt closes = 1 then 1 else 0)) := by
  unfold longSignals
  split_ifs <;> rfl

/-- The short vote count is the sum of the three indicator short votes. -/
theorem length_shortSignals (msqrt : ℚ → ℚ) (closes : List ℚ) :
    (shortSignals msqrt closes).length =
      (if emaScore closes = -1 then 1 else 0) +
        ((if rsiScore closes = -1 then 1 else 0) + (if bbScore msqrt closes = -1 then 1 else 0)) := by
  unfold shortSignals
  split_ifs <;> rfl

/-- C9: each of the three indicators votes for at most one direction, so
the long and short vote counts sum to at most 3 and the smaller of the
two counts is at most 1 — both directions can never reach the
2-vote confluence threshold at once, the tie case is unreachable, and
checking long confluence first can never mask a short confluence. -/
theorem C9_vote_partition (msqrt : ℚ → ℚ) (closes : List ℚ) :
    (longSignals msqrt closes).length + (shortSignals msqrt closes).length ≤ 3 ∧
    min (longSignals msqrt closes).length (shortSignals msqrt closes).length ≤ 1 := by
  rw [length_longSignals, length_shortSignals]
  split_ifs <;> omega

/-- A signal with its creation timestamp reset, used to compare engine
outputs across clock readings. -/
def stripTimestamp (s : Signal) : Signal := { s with timestamp := 0 }

/-- C6 (amended): the confluence engine is deterministic in its inputs in
every output field except the emitted signal's timestamp, which copies
the clock; the rejection log and all other signal fields are identical
across clock readings. -/
theorem C6_determinism (msqrt : ℚ → ℚ) (now1 now2 : ℤ) (symbol : String)
    (tf : Timeframe) (ks : List Kline) :
    (runAllStrategies msqrt now1 symbol tf ks).rejections =
      (runAllStrategies msqrt now2 symbol tf ks).rejections ∧
    (runAllStrategies msqrt now1 symbol tf ks).signals.map stripTimestamp =
      (runAllStrategies msqrt now2 symbol tf ks).signals.map stripTimestamp := by
  unfold runAllStrategies
  simp only []
  split_ifs <;> simp [stripTimestamp]

/-- The signal emitted on the zero-range degenerate series, parametrized
by the clock reading it embeds. -/
def zeroRangeSig (t : ℤ) : Signal :=
  { symbol := "BTCUSDT", timeframe := Timeframe.h1,
    strategyName := "SuperStrategy (EMA Cross + RSI Overbought)",
    direction := Direction.SHORT, entry := 363317 / 1000,
    stopLoss := 363317 / 1000, takeProfit := 363317 / 1000,
    positionSize := none, suggestedLeverage := none, timestamp := t,
    status := SigStatus.PENDING, rejectionReason := none }

/-- The signal emitted on the well-formed scenario series. -/
def scenarioSig : Signal :=
  (runAllStrategies sqrtZ 0 "BTCUSDT" Timeframe.h1 scenarioKlines).signals.getD 0 dummySignal

/-- C6, refuting part: two runs of the engine on identical inputs but at
clock readings 0 and 1 return signals that differ in the timestamp
field, so the function is not referentially transparent in the claimed
sense — the timestamp comes from the ambient clock, not the inputs. -/
theorem C6_counterexample :
    runAllStrategies sqrtZ 0 "BTCUSDT" Timeframe.h1 zeroRangeKlines =
      ⟨[zeroRangeSig 0], []⟩ ∧
    runAllStrategies sqrtZ 1 "BTCUSDT" Timeframe.h1 zeroRangeKlines =
      ⟨[zeroRangeSig 1], []⟩ ∧
    zeroRangeSig 0 ≠ zeroRangeSig 1 :=
  ⟨by decide, by decide, by decide⟩



/-- C1, refuting part: on the degenerate series whose true ranges are all
zero, a SHORT signal is emitted with ATR = 0, so its stop-loss and
take-profit both coincide with the entry — the stop is not above entry
and the target is not below it, refuting the unqualified claim. -/
theorem C1_counterexample :
    (runAllStrategies sqrtZ 0 "BTCUSDT" Timeframe.h1 zeroRangeKlines).signals =
      [zeroRangeSig 0] ∧
    (zeroRangeSig 0).direction = Direction.SHORT ∧
    (zeroRangeSig 0).stopLoss = (zeroRangeSig 0).entry ∧
    ¬ (zeroRangeSig 0).entry < (zeroRangeSig 0).stopLoss :=
  ⟨by decide, by decide, by decide, by decide⟩



/-- C1 (amended): every signal the confluence engine emits has entry equal
to the latest close, stop placed 2 ATR(14) from entry and target placed
4 ATR(14) from entry on the sides its direction dictates, and a target
distance exactly twice the stop distance; whenever the latest ATR is
positive, stop and target lie strictly on the correct sides of entry,
and when the latest ATR is zero both coincide with the entry. -/
theorem C1_stop_target (msqrt : ℚ → ℚ) (now : ℤ) (symbol : String) (tf : Timeframe)
    (ks : List Kline) (s : Signal)
    (h1 : s ∈ (runAllStrategies msqrt now symbol tf ks).signals) :
    s.entry = lastClose ks ∧
    s.stopLoss = (if s.direction = Direction.LONG then s.entry - 2 * currentATRof ks
      else s.entry + 2 * currentATRof ks) ∧
    s.takeProfit = (if s.direction = Direction.LONG then s.entry + 4 * currentATRof ks
      else s.entry - 4 * currentATRof ks) ∧
    |s.takeProfit - s.entry| = 2 * |s.entry - s.stopLoss| ∧
    (0 < currentATRof ks →
      (if s.direction = Direction.LONG then s.stopLoss < s.entry ∧ s.entry < s.takeProfit
       else s.takeProfit < s.entry ∧ s.entry < s.stopLoss)) ∧
    (currentATRof ks = 0 → s.stopLoss = s.entry ∧ s.takeProfit = s.entry) := by
  unfold runAllStrategies at h1
  simp only [] at h1
  unfold currentATRof
  unfold lastClose
  split_ifs at h1
  all_goals simp only [List.mem_singleton, List.not_mem_nil] at h1
  all_goals subst h1
  all_goals simp only []
  all_goals try contradiction
  · simp only [if_true]
    set p := (List.map (fun k => k.close) ks).getD (ks.length - 1) 0 with hp
    set a := (calculateATR ks 14).getD (ks.length - 1) 0 with ha
    refine ⟨trivial, by ring, by ring, ?_, ?_, ?_⟩
    · rw [show p + a * 2 * 2 - p = 4 * a by ring, show p - (p - a * 2) = 2 * a by ring,
        abs_mul, abs_mul]
      norm_num
      ring
    · intro hpos
      exact ⟨by linarith, by linarith⟩
    · intro h0
      rw [h0]
      constructor <;> ring
  · simp only [if_neg (show ¬ (Direction.SHORT = Direction.LONG) by simp)]
    set p := (List.map (fun k => k.close) ks).getD (ks.length - 1) 0 with hp
    set a := (calculateATR ks 14).getD (ks.length - 1) 0 with ha
    refine ⟨trivial, by ring, by ring, ?_, ?_, ?_⟩
    · rw [show p - a * 2 * 2 - p = -(4 * a) by ring, show p - (p + a * 2) = -(2 * a) by ring,
        abs_neg, abs_neg, abs_mul, abs_mul]
      norm_num
      ring
    · intro hpos
      exact ⟨by linarith, by linarith⟩
    · intro h0
      rw [h0]
      constructor <;> ring

/-- C1 witness: the scenario series emits a signal, its membership and the
full placement conclusion hold concretely, including the positive-ATR
strictness (the series has positive ATR, so the strictness conjunct is
non-vacuous here). -/
theorem C1_witness :
    scenarioSig ∈ (runAllStrategies sqrtZ 0 "BTCUSDT" Timeframe.h1 scenarioKlines).signals ∧
    (scenarioSig.entry = lastClose scenarioKlines ∧
     scenarioSig.stopLoss = (if scenarioSig.direction = Direction.LONG
       then scenarioSig.entry - 2 * currentATRof scenarioKlines
       else scenarioSig.entry + 2 * currentATRof scenarioKlines) ∧
     scenarioSig.takeProfit = (if scenarioSig.direction = Direction.LONG
       then scenarioSig.entry + 4 * currentATRof scenarioKlines
       else scenarioSig.entry - 4 * currentATRof scenarioKlines) ∧
     |scenarioSig.takeProfit - scenarioSig.entry| =
       2 * |scenarioSig.entry - scenarioSig.stopLoss| ∧
     (0 < currentATRof scenarioKlines →
       (if scenarioSig.direction = Direction.LONG
        then scenarioSig.stopLoss < scenarioSig.entry ∧
          scenarioSig.entry < scenarioSig.takeProfit
        else scenarioSig.takeProfit < scenarioSig.entry ∧
          scenarioSig.entry < scenarioSig.stopLoss)) ∧
     (currentATRof scenarioKlines = 0 →
       scenarioSig.stopLoss = scenarioSig.entry ∧
       scenarioSig.takeProfit = scenarioSig.entry)) :=
  ⟨by decide,
   C1_stop_target sqrtZ 0 "BTCUSDT" Timeframe.h1 scenarioKlines scenarioSig (by decide)⟩

/-- C2: on an input long enough to pass the history guard, every emitted
signal's direction holds at least two of the three indicator votes
(LONG only when the long vote list has length at least 2, SHORT only
when the short vote list does); and when neither direction reaches two
votes, no signal is emitted and the rejection log is exactly one
low-confluence entry when any vote is active, empty otherwise. -/
theorem C2_confluence_gate (msqrt : ℚ → ℚ) (now : ℤ) (symbol : String) (tf : Timeframe)
    (ks : List Kline)
    (h1 : 200 ≤ ks.length) :
    (∀ s ∈ (runAllStrategies msqrt now symbol tf ks).signals,
      (s.direction = Direction.LONG →
        2 ≤ (longSignals msqrt (ks.map (fun k => k.close))).length) ∧
      (s.direction = Direction.SHORT →
        2 ≤ (shortSignals msqrt (ks.map (fun k => k.close))).length)) ∧
    ((longSignals msqrt (ks.map (fun k => k.close))).length < 2 →
     (shortSignals msqrt (ks.map (fun k => k.close))).length < 2 →
      (runAllStrategies msqrt now symbol tf ks).signals = [] ∧
      (runAllStrategies msqrt now symbol tf ks).rejections =
        (if 0 < (if 0 < (longSignals msqrt (ks.map (fun k => k.close))).length
                 then longSignals msqrt (ks.map (fun k => k.close))
                 else shortSignals msqrt (ks.map (fun k => k.close))).length
         then [lowConfluenceMsg symbol
                 (if 0 < (longSignals msqrt (ks.map (fun k => k.close))).length
                  then longSignals msqrt (ks.map (fun k => k.close))
                  else shortSignals msqrt (ks.map (fun k => k.close)))]
         else [])) := by
  constructor
  · intro s hs
    unfold runAllStrategies at hs
    rw [if_neg (by omega)] at hs
    simp only [] at hs
    split_ifs at hs with hA hB hC hD hE hF hG hH
    all_goals simp only [List.mem_singleton, List.not_mem_nil] at hs
    all_goals subst hs
    all_goals simp only []
    all_goals try contradiction
    all_goals
      first
        | (refine ⟨fun _ => hA, fun hd => ?_⟩
           simp at hd)
        | (refine ⟨fun hd => ?_, fun _ => hD⟩
           simp at hd)
  · intro h2 h3
    unfold runAllStrategies
    rw [if_neg (by omega)]
    simp only []
    rw [if_neg (by omega), if_neg (by omega)]
    constructor
    · split_ifs <;> rfl
    · split_ifs <;> rfl

/-- C2 witness: 200 identical bars carry exactly one active vote (the
constant series keeps the Wilder average loss at zero, so RSI sits at
10000/101 > 70), so neither direction reaches two votes; the gate
theorem applies and the engine emits nothing while logging one
low-confluence rejection. -/
theorem C2_witness :
    200 ≤ constKlines.length ∧
    (longSignals sqrtZ (constKlines.map (fun k => k.close))).length < 2 ∧
    (shortSignals sqrtZ (constKlines.map (fun k => k.close))).length < 2 ∧
    ((∀ s ∈ (runAllStrategies sqrtZ 0 "BTCUSDT" Timeframe.h1 constKlines).signals,
       (s.direction = Direction.LONG →
         2 ≤ (longSignals sqrtZ (constKlines.map (fun k => k.close))).length) ∧
       (s.direction = Direction.SHORT →
         2 ≤ (shortSignals sqrtZ (constKlines.map (fun k => k.close))).length)) ∧
     ((longSignals sqrtZ (constKlines.map (fun k => k.close))).length < 2 →
      (shortSignals sqrtZ (constKlines.map (fun k => k.close))).length < 2 →
       (runAllStrategies sqrtZ 0 "BTCUSDT" Timeframe.h1 constKlines).signals = [] ∧
       (runAllStrategies sqrtZ 0 "BTCUSDT" Timeframe.h1 constKlines).rejections =
         (if 0 < (if 0 < (longSignals sqrtZ (constKlines.map (fun k => k.close))).length
                  then longSignals sqrtZ (constKlines.map (fun k => k.close))
                  else shortSignals sqrtZ (constKlines.map (fun k => k.close))).length
          then [lowConfluenceMsg "BTCUSDT"
                  (if 0 < (longSignals sqrtZ (constKlines.map (fun k => k.close))).length
                   then longSignals sqrtZ (constKlines.map (fun k => k.close))
                   else shortSignals sqrtZ (constKlines.map (fun k => k.close)))]
          else []))) :=
  ⟨by decide, by decide, by decide,
   C2_confluence_gate sqrtZ 0 "BTCUSDT" Timeframe.h1 constKlines (by decide)⟩


end Multis
